import Mathlib

/-
  Shallow embedding of the UVC webcam negotiation and frame-lifecycle
  coordinator (src/main/usb_webcam_main.c and src/main/uvc_frame_config.h).

  External library calls (esp_camera_init, esp_camera_deinit,
  esp_camera_return_all, sensor setter functions, esp_camera_fb_get,
  esp_camera_fb_return) are modelled as events recorded in a trace; the
  results the external libraries deliver (init status, sensor product id,
  JPEG support, a captured frame) are modelled as explicit environment
  inputs.  The static mutable state of the C file becomes explicit state
  records threaded through the functions.
-/

namespace UsbWebcam

/-- The uvc_format_t enumeration of the transport library; index order
follows the uvc_format_names array in usb_webcam_main.c, so MJPEG is
value 1. -/
inductive uvc_format_t where
  | UVC_FORMAT_UNKNOWN
  | UVC_FORMAT_MJPEG
  | UVC_FORMAT_YUY2
  | UVC_FORMAT_NV12
  | UVC_FORMAT_GRAY8
deriving DecidableEq

/-- Pixel formats of the esp_camera sensor library; PIXFORMAT_RGB565 is
value 0 (the initial value of cur_pixel_format). -/
inductive pixformat_t where
  | PIXFORMAT_RGB565
  | PIXFORMAT_YUV422
  | PIXFORMAT_GRAYSCALE
  | PIXFORMAT_JPEG
  | PIXFORMAT_RGB888
deriving DecidableEq

/-- Sensor frame-size classes of the esp_camera library that this firmware
uses; FRAMESIZE_96X96 is value 0 (the initial value of cur_frame_size). -/
inductive framesize_t where
  | FRAMESIZE_96X96
  | FRAMESIZE_QQVGA
  | FRAMESIZE_QVGA
  | FRAMESIZE_HVGA
  | FRAMESIZE_VGA
  | FRAMESIZE_SVGA
  | FRAMESIZE_HD
  | FRAMESIZE_FHD
deriving DecidableEq

/-- Error codes used by the coordinator. -/
inductive esp_err_t where
  | ESP_OK
  | ESP_ERR_NOT_SUPPORTED
  | ESP_FAIL
  | ESP_ERR_NO_MEM
deriving DecidableEq

/-- Sensor product id of the OV2640 sensor (esp_camera sensor library). -/
def OV2640_PID : Nat := 0x26

/-- Sensor product id of the OV3660 sensor (esp_camera sensor library). -/
def OV3660_PID : Nat := 0x3660

/-- Sensor product id of the GC0308 sensor (esp_camera sensor library). -/
def GC0308_PID : Nat := 0x9b

/-- Sensor product id of the GC032A sensor (esp_camera sensor library). -/
def GC032A_PID : Nat := 0x232a

/-- CAMERA_FB_COUNT from usb_webcam_main.c. -/
def CAMERA_FB_COUNT : Nat := 2

/-- UVC_MAX_FRAMESIZE_SIZE from usb_webcam_main.c: 75 KiB on ESP32-S3
targets, 60 KiB otherwise. -/
def UVC_MAX_FRAMESIZE_SIZE (esp32s3 : Bool) : Nat :=
  if esp32s3 then 75 * 1024 else 60 * 1024

/-- One row of the compiled-in capability table (uvc_frame_info_t in
uvc_frame_config.h). -/
structure uvc_frame_info_t where
  width : Nat
  height : Nat
  rate : Nat
  interval : Nat
deriving DecidableEq

/-- The compiled-in capability table UVC_FRAMES_INFO of
uvc_frame_config.h (the single MJPEG format row group). -/
def UVC_FRAMES_INFO : List uvc_frame_info_t :=
  [⟨640, 480, 30, 333333⟩,
   ⟨320, 240, 30, 333333⟩,
   ⟨480, 320, 30, 333333⟩,
   ⟨1280, 720, 15, 666666⟩]

/-- The static state of camera_init: the inited flag and the cached
configuration fields (cur_xclk_freq_hz, cur_pixel_format, cur_frame_size,
cur_jpeg_quality, cur_fb_count). -/
structure CameraState where
  inited : Bool
  cur_xclk_freq_hz : Nat
  cur_pixel_format : pixformat_t
  cur_frame_size : framesize_t
  cur_jpeg_quality : Int
  cur_fb_count : Nat
deriving DecidableEq

/-- The initial values of the static variables of camera_init (all zero,
inited false). -/
def initialCameraState : CameraState :=
  { inited := false
    cur_xclk_freq_hz := 0
    cur_pixel_format := pixformat_t.PIXFORMAT_RGB565
    cur_frame_size := framesize_t.FRAMESIZE_96X96
    cur_jpeg_quality := 0
    cur_fb_count := 0 }

/-- The behaviour of the external esp_camera library during one
initialization attempt: the status esp_camera_init returns, the product
id the sensor reports, and whether the sensor info reports JPEG
support. -/
structure CameraEnv where
  esp_camera_init_result : esp_err_t
  sensor_pid : Nat
  support_jpeg : Bool
deriving DecidableEq

/-- Calls camera_init makes into the esp_camera library, recorded as
trace events. -/
inductive CamEvent where
  | espCameraReturnAll
  | espCameraDeinit
  | espCameraInitEv (xclk : Nat) (pf : pixformat_t) (fs : framesize_t)
      (q : Int) (fbc : Nat)
  | setVflip (v : Int)
  | setBrightness (v : Int)
  | setSaturation (v : Int)
  | setHmirror (v : Int)
deriving DecidableEq

/-- True exactly for the hardware lifecycle calls (return-all, deinit,
init), as opposed to the sensor parameter-setting calls. -/
def isLifecycleEvent : CamEvent → Bool
  | CamEvent.espCameraReturnAll => true
  | CamEvent.espCameraDeinit => true
  | CamEvent.espCameraInitEv _ _ _ _ _ => true
  | _ => false

/-- The sensor parameter-setting calls camera_init performs after a
successful esp_camera_init, lines 122-137 of usb_webcam_main.c: one
unconditional set_vflip(s, 1), then brightness and saturation corrections
when the product id is OV3660, then a product-id matched
vflip/hmirror chain. -/
def sensor_corrections (pid : Nat) : List CamEvent :=
  [CamEvent.setVflip 1]
  ++ (if pid = OV3660_PID then
        [CamEvent.setBrightness 1, CamEvent.setSaturation (-2)]
      else [])
  ++ (if pid = OV3660_PID ∨ pid = OV2640_PID then [CamEvent.setVflip 1]
      else if pid = GC0308_PID then [CamEvent.setHmirror 0]
      else if pid = GC032A_PID then [CamEvent.setVflip 1]
      else [])

/-- camera_init of usb_webcam_main.c, lines 61-156, as a pure transition:
given the requested configuration, the external library behaviour and the
current static state, it yields the returned status, the new static state
and the trace of esp_camera library calls made. -/
def camera_init (xclk : Nat) (pf : pixformat_t) (fs : framesize_t)
    (q : Int) (fbc : Nat) (env : CameraEnv) (st : CameraState) :
    esp_err_t × CameraState × List CamEvent :=
  if st.inited = true ∧ st.cur_xclk_freq_hz = xclk
      ∧ st.cur_pixel_format = pf ∧ st.cur_frame_size = fs
      ∧ st.cur_fb_count = fbc ∧ st.cur_jpeg_quality = q then
    (esp_err_t.ESP_OK, st, [])
  else
    let st1 := if st.inited then { st with inited := false } else st
    let evs1 : List CamEvent :=
      if st.inited then
        [CamEvent.espCameraReturnAll, CamEvent.espCameraDeinit]
      else []
    let evs2 := evs1 ++ [CamEvent.espCameraInitEv xclk pf fs q fbc]
    if env.esp_camera_init_result ≠ esp_err_t.ESP_OK then
      (env.esp_camera_init_result, st1, evs2)
    else
      let evs3 := evs2 ++ sensor_corrections env.sensor_pid
      if pf = pixformat_t.PIXFORMAT_JPEG ∧ env.support_jpeg = true then
        (esp_err_t.ESP_OK,
          { inited := true
            cur_xclk_freq_hz := xclk
            cur_pixel_format := pf
            cur_frame_size := fs
            cur_jpeg_quality := q
            cur_fb_count := fbc }, evs3)
      else
        (esp_err_t.ESP_ERR_NOT_SUPPORTED, st1, evs3)

/-- The s_uvc_params record of usb_webcam_main.c: the negotiated UVC
parameters (frame_interval in 100-ns units). -/
structure UvcParams where
  format : uvc_format_t
  width : Int
  height : Int
  frame_rate : Nat
  frame_interval : Nat
deriving DecidableEq

/-- The initializer of s_uvc_params. -/
def s_uvc_params_default : UvcParams :=
  { format := uvc_format_t.UVC_FORMAT_MJPEG
    width := 640
    height := 480
    frame_rate := 30
    frame_interval := 333333 }

/-- The resolution-to-frame-size chain of camera_start_cb, lines 191-212:
an exact match on (width, height) yielding the sensor frame-size class and
the JPEG quality, or none for the unsupported-resolution branch. -/
def frame_size_for (width height : Int) : Option (framesize_t × Int) :=
  if width = 320 ∧ height = 240 then some (framesize_t.FRAMESIZE_QVGA, 10)
  else if width = 480 ∧ height = 320 then some (framesize_t.FRAMESIZE_HVGA, 10)
  else if width = 640 ∧ height = 480 then some (framesize_t.FRAMESIZE_VGA, 12)
  else if width = 800 ∧ height = 600 then some (framesize_t.FRAMESIZE_SVGA, 14)
  else if width = 1280 ∧ height = 720 then some (framesize_t.FRAMESIZE_HD, 16)
  else if width = 1920 ∧ height = 1080 then some (framesize_t.FRAMESIZE_FHD, 16)
  else none

/-- The six (width, height) pairs the resolution chain of camera_start_cb
matches. -/
def supported_resolutions : List (Int × Int) :=
  [(320, 240), (480, 320), (640, 480), (800, 600), (1280, 720), (1920, 1080)]

/-- camera_start_cb of usb_webcam_main.c, lines 164-224, as a pure
transition: given the negotiated request, the compile-time clock constant,
the external library behaviour, the camera static state and the previous
s_uvc_params value, it yields the returned status, the new s_uvc_params,
the new camera state and the trace of esp_camera library calls.  The
frame rate is a positive count (rate 0 would divide by zero in the C
code, a precondition violation). -/
def camera_start_cb (xclkFreq : Nat) (format : uvc_format_t)
    (width height : Int) (rate : Nat) (env : CameraEnv)
    (st : CameraState) (params0 : UvcParams) :
    esp_err_t × UvcParams × CameraState × List CamEvent :=
  let params : UvcParams :=
    { format := format
      width := width
      height := height
      frame_rate := rate
      frame_interval := 10000000 / rate }
  if format ≠ uvc_format_t.UVC_FORMAT_MJPEG then
    (esp_err_t.ESP_ERR_NOT_SUPPORTED, params, st, [])
  else
    match frame_size_for width height with
    | none => (esp_err_t.ESP_ERR_NOT_SUPPORTED, params, st, [])
    | some (fs, q) =>
      let r := camera_init xclkFreq pixformat_t.PIXFORMAT_JPEG fs q
        CAMERA_FB_COUNT env st
      (r.1, params, r.2.1, r.2.2)

/-- A sensor frame buffer (camera_fb_t of the esp_camera library): the
buffer pointer is modelled as a numeric identity. -/
structure camera_fb_t where
  buf : Nat
  len : Nat
  width : Nat
  height : Nat
  format : pixformat_t
  timestamp : Nat
deriving DecidableEq

/-- The transport-facing frame descriptor (uvc_fb_t), aliasing the sensor
buffer's metadata. -/
structure uvc_fb_t where
  buf : Nat
  len : Nat
  width : Nat
  height : Nat
  format : pixformat_t
  timestamp : Nat
deriving DecidableEq

/-- The static s_fb pairing of usb_webcam_main.c: the sensor buffer
pointer (possibly null) and the transport descriptor. -/
structure fb_t where
  cam_fb_p : Option camera_fb_t
  uvc_fb : uvc_fb_t
deriving DecidableEq

/-- Buffer-return calls into the esp_camera library (the argument is the
pointer value passed, possibly null). -/
inductive FbEvent where
  | espCameraFbReturn (fb : Option camera_fb_t)
deriving DecidableEq

/-- The address of the static s_fb.uvc_fb descriptor, the one non-null
pointer camera_fb_get_cb ever returns; modelled as a fixed distinguished
value. -/
def S_FB_UVC_FB_ADDR : Nat := 1

/-- camera_fb_get_cb of usb_webcam_main.c, lines 226-246: given the frame
esp_camera_fb_get delivered (none when no frame is ready) and the current
s_fb state, yields the returned descriptor pointer (none for NULL), the
new s_fb state and the buffer-return calls made. -/
def camera_fb_get_cb (maxFrameSize : Nat) (got : Option camera_fb_t)
    (s : fb_t) : Option Nat × fb_t × List FbEvent :=
  match got with
  | none => (none, { s with cam_fb_p := none }, [])
  | some cam =>
    let s1 : fb_t :=
      { cam_fb_p := some cam
        uvc_fb :=
          { buf := cam.buf
            len := cam.len
            width := cam.width
            height := cam.height
            format := cam.format
            timestamp := cam.timestamp } }
    if cam.len > maxFrameSize then
      (none, s1, [FbEvent.espCameraFbReturn (some cam)])
    else
      (some S_FB_UVC_FB_ADDR, s1, [])

/-- camera_fb_return_cb of usb_webcam_main.c, lines 248-253: the assert
compares the passed pointer with the address of s_fb.uvc_fb; on a
mismatch the assertion fires (modelled as none) before any buffer-return
call; on a match exactly one esp_camera_fb_return(s_fb.cam_fb_p) call is
made. -/
def camera_fb_return_cb (fb : Nat) (s : fb_t) : Option (List FbEvent) :=
  if fb = S_FB_UVC_FB_ADDR then
    some [FbEvent.espCameraFbReturn s.cam_fb_p]
  else
    none

/-- Every call sensor_corrections records is a sensor parameter-setting
call, never a lifecycle (return-all, deinit, init) call. -/
theorem sensor_corrections_no_lifecycle (pid : Nat) :
    ∀ e ∈ sensor_corrections pid, isLifecycleEvent e = false := by
  have h : (sensor_corrections pid).all (fun e => !isLifecycleEvent e) = true := by
    unfold sensor_corrections
    split_ifs <;> rfl
  intro e he
  have h2 := List.all_eq_true.mp h e he
  simpa using h2

/-- A (width, height) pair outside the six supported pairs falls through
every branch of the resolution chain. -/
theorem frame_size_for_eq_none (width height : Int)
    (hmem : (width, height) ∉ supported_resolutions) :
    frame_size_for width height = none := by
  simp only [supported_resolutions, List.mem_cons, List.not_mem_nil,
    or_false, Prod.mk.injEq, not_or] at hmem
  obtain ⟨h1, h2, h3, h4, h5, h6⟩ := hmem
  simp [frame_size_for, h1, h2, h3, h4, h5, h6]

/-- C1 (counterexample): 1920x1080 is absent from all four rows of
UVC_FRAMES_INFO, yet negotiating MJPEG 1920x1080@60fps does not fail as
unsupported: with a cooperating sensor it returns ESP_OK, and the sensor
reconfiguration call esp_camera_init is issued for the FHD class. -/
theorem C1_counterexample :
    (∀ f ∈ UVC_FRAMES_INFO, ¬(f.width = 1920 ∧ f.height = 1080)) ∧
    (camera_start_cb 20000000 uvc_format_t.UVC_FORMAT_MJPEG 1920 1080 60
        { esp_camera_init_result := esp_err_t.ESP_OK
          sensor_pid := OV2640_PID
          support_jpeg := true }
        initialCameraState s_uvc_params_default).1
      ≠ esp_err_t.ESP_ERR_NOT_SUPPORTED ∧
    CamEvent.espCameraInitEv 20000000 pixformat_t.PIXFORMAT_JPEG
        framesize_t.FRAMESIZE_FHD 16 CAMERA_FB_COUNT ∈
      (camera_start_cb 20000000 uvc_format_t.UVC_FORMAT_MJPEG 1920 1080 60
        { esp_camera_init_result := esp_err_t.ESP_OK
          sensor_pid := OV2640_PID
          support_jpeg := true }
        initialCameraState s_uvc_params_default).2.2.2 := by
  decide

/-- C1 (amended): an MJPEG negotiation whose (width, height) pair is
outside the six pairs of the hard-coded resolution chain (320x240,
480x320, 640x480, 800x600, 1280x720, 1920x1080) fails with
ESP_ERR_NOT_SUPPORTED, leaves the camera state unchanged and makes no
esp_camera call; pairs inside the chain but absent from UVC_FRAMES_INFO,
such as 1920x1080, are not rejected. -/
theorem C1_unmapped_resolution_rejected (xclkFreq : Nat)
    (width height : Int) (rate : Nat) (env : CameraEnv) (st : CameraState)
    (params0 : UvcParams) (hrate : 0 < rate)
    (hmem : (width, height) ∉ supported_resolutions) :
    camera_start_cb xclkFreq uvc_format_t.UVC_FORMAT_MJPEG width height
        rate env st params0
      = (esp_err_t.ESP_ERR_NOT_SUPPORTED,
         { format := uvc_format_t.UVC_FORMAT_MJPEG
           width := width
           height := height
           frame_rate := rate
           frame_interval := 10000000 / rate }, st, []) := by
  have h := frame_size_for_eq_none width height hmem
  simp [camera_start_cb, h]

/-- C1 witness: negotiating the unmapped pair 1000x1000 at 60fps is
rejected with no esp_camera call. -/
theorem C1_unmapped_resolution_rejected_witness :
    0 < 60 ∧ ((1000 : Int), (1000 : Int)) ∉ supported_resolutions ∧
    camera_start_cb 20000000 uvc_format_t.UVC_FORMAT_MJPEG 1000 1000 60
        { esp_camera_init_result := esp_err_t.ESP_OK
          sensor_pid := OV2640_PID
          support_jpeg := true }
        initialCameraState s_uvc_params_default
      = (esp_err_t.ESP_ERR_NOT_SUPPORTED,
         { format := uvc_format_t.UVC_FORMAT_MJPEG
           width := 1000
           height := 1000
           frame_rate := 60
           frame_interval := 10000000 / 60 },
         initialCameraState, []) :=
  ⟨by decide, by decide,
   C1_unmapped_resolution_rejected 20000000 1000 1000 60
     { esp_camera_init_result := esp_err_t.ESP_OK
       sensor_pid := OV2640_PID
       support_jpeg := true }
     initialCameraState s_uvc_params_default (by decide) (by decide)⟩

/-- C2: for every negotiation with positive frame rate the stored
frame_interval equals the integer division 10000000 / rate, and every row
of the compiled-in table UVC_FRAMES_INFO satisfies
interval = 10000000 / rate. -/
theorem C2_frame_interval_division (xclkFreq : Nat) (format : uvc_format_t)
    (width height : Int) (rate : Nat) (env : CameraEnv) (st : CameraState)
    (params0 : UvcParams) (hrate : 0 < rate) :
    (camera_start_cb xclkFreq format width height rate env st
        params0).2.1.frame_interval = 10000000 / rate ∧
    ∀ f ∈ UVC_FRAMES_INFO, f.interval = 10000000 / f.rate := by
  constructor
  · unfold camera_start_cb
    dsimp only
    split
    · rfl
    · split <;> rfl
  · decide

/-- C2 witness: at 15 fps the stored interval is 666666 and the table
rows check out. -/
theorem C2_frame_interval_division_witness :
    0 < 15 ∧
    ((camera_start_cb 20000000 uvc_format_t.UVC_FORMAT_MJPEG 1280 720 15
        { esp_camera_init_result := esp_err_t.ESP_OK
          sensor_pid := OV2640_PID
          support_jpeg := true }
        initialCameraState s_uvc_params_default).2.1.frame_interval
      = 10000000 / 15 ∧
    ∀ f ∈ UVC_FRAMES_INFO, f.interval = 10000000 / f.rate) :=
  ⟨by decide,
   C2_frame_interval_division 20000000 uvc_format_t.UVC_FORMAT_MJPEG
     1280 720 15
     { esp_camera_init_result := esp_err_t.ESP_OK
       sensor_pid := OV2640_PID
       support_jpeg := true }
     initialCameraState s_uvc_params_default (by decide)⟩

/-- C3: when the camera is initialized and the requested configuration
equals the cached one field-wise, camera_init returns ESP_OK, makes no
esp_camera call and leaves the state unchanged. -/
theorem C3_configure_idempotent (xclk : Nat) (pf : pixformat_t)
    (fs : framesize_t) (q : Int) (fbc : Nat) (env : CameraEnv)
    (st : CameraState) (hinit : st.inited = true)
    (hx : st.cur_xclk_freq_hz = xclk) (hpf : st.cur_pixel_format = pf)
    (hfs : st.cur_frame_size = fs) (hq : st.cur_jpeg_quality = q)
    (hfbc : st.cur_fb_count = fbc) :
    camera_init xclk pf fs q fbc env st = (esp_err_t.ESP_OK, st, []) := by
  unfold camera_init
  rw [if_pos ⟨hinit, hx, hpf, hfs, hfbc, hq⟩]

/-- C3 witness: re-requesting the cached VGA configuration is a no-op. -/
theorem C3_configure_idempotent_witness :
    camera_init 20000000 pixformat_t.PIXFORMAT_JPEG
        framesize_t.FRAMESIZE_VGA 12 2
        { esp_camera_init_result := esp_err_t.ESP_OK
          sensor_pid := OV2640_PID
          support_jpeg := true }
        { inited := true
          cur_xclk_freq_hz := 20000000
          cur_pixel_format := pixformat_t.PIXFORMAT_JPEG
          cur_frame_size := framesize_t.FRAMESIZE_VGA
          cur_jpeg_quality := 12
          cur_fb_count := 2 }
      = (esp_err_t.ESP_OK,
         { inited := true
           cur_xclk_freq_hz := 20000000
           cur_pixel_format := pixformat_t.PIXFORMAT_JPEG
           cur_frame_size := framesize_t.FRAMESIZE_VGA
           cur_jpeg_quality := 12
           cur_fb_count := 2 }, []) :=
  C3_configure_idempotent 20000000 pixformat_t.PIXFORMAT_JPEG
    framesize_t.FRAMESIZE_VGA 12 2
    { esp_camera_init_result := esp_err_t.ESP_OK
      sensor_pid := OV2640_PID
      support_jpeg := true }
    { inited := true
      cur_xclk_freq_hz := 20000000
      cur_pixel_format := pixformat_t.PIXFORMAT_JPEG
      cur_frame_size := framesize_t.FRAMESIZE_VGA
      cur_jpeg_quality := 12
      cur_fb_count := 2 }
    rfl rfl rfl rfl rfl rfl

/-- C4: a configure call while initialized with a configuration differing
from the cached one in at least one field performs exactly one teardown
followed by exactly one initialization, in order: esp_camera_return_all,
then esp_camera_deinit, then esp_camera_init with the new configuration;
no further lifecycle call follows, and if the attempt does not end in
ESP_OK the state is left uninitialized. -/
theorem C4_reconfigure_teardown_then_reinit (xclk : Nat) (pf : pixformat_t)
    (fs : framesize_t) (q : Int) (fbc : Nat) (env : CameraEnv)
    (st : CameraState) (hinit : st.inited = true)
    (hne : ¬(st.cur_xclk_freq_hz = xclk ∧ st.cur_pixel_format = pf
        ∧ st.cur_frame_size = fs ∧ st.cur_fb_count = fbc
        ∧ st.cur_jpeg_quality = q)) :
    ∃ rest, (camera_init xclk pf fs q fbc env st).2.2
        = CamEvent.espCameraReturnAll :: CamEvent.espCameraDeinit
          :: CamEvent.espCameraInitEv xclk pf fs q fbc :: rest
      ∧ (∀ e ∈ rest, isLifecycleEvent e = false)
      ∧ ((camera_init xclk pf fs q fbc env st).1 ≠ esp_err_t.ESP_OK
          → (camera_init xclk pf fs q fbc env st).2.1.inited = false) := by
  unfold camera_init
  rw [if_neg (fun hc => hne hc.2)]
  by_cases he : env.esp_camera_init_result = esp_err_t.ESP_OK
  · by_cases hj : pf = pixformat_t.PIXFORMAT_JPEG ∧ env.support_jpeg = true
    · refine ⟨sensor_corrections env.sensor_pid, ?_,
        sensor_corrections_no_lifecycle env.sensor_pid, ?_⟩
      · simp [hinit, he, hj]
      · simp [hinit, he, hj]
    · refine ⟨sensor_corrections env.sensor_pid, ?_,
        sensor_corrections_no_lifecycle env.sensor_pid, ?_⟩
      · simp [hinit, he, hj]
      · intro hr
        simp [hinit, he, hj]
  · refine ⟨[], ?_, by simp, ?_⟩
    · simp [hinit, he]
    · intro hr
      simp [hinit, he]

/-- C4 witness: reconfiguring from the cached VGA quality-12
configuration to HD quality-16 tears down once and reinitializes once, in
order. -/
theorem C4_reconfigure_teardown_then_reinit_witness :
    ∃ rest, (camera_init 20000000 pixformat_t.PIXFORMAT_JPEG
        framesize_t.FRAMESIZE_HD 16 2
        { esp_camera_init_result := esp_err_t.ESP_OK
          sensor_pid := OV2640_PID
          support_jpeg := true }
        { inited := true
          cur_xclk_freq_hz := 20000000
          cur_pixel_format := pixformat_t.PIXFORMAT_JPEG
          cur_frame_size := framesize_t.FRAMESIZE_VGA
          cur_jpeg_quality := 12
          cur_fb_count := 2 }).2.2
        = CamEvent.espCameraReturnAll :: CamEvent.espCameraDeinit
          :: CamEvent.espCameraInitEv 20000000 pixformat_t.PIXFORMAT_JPEG
               framesize_t.FRAMESIZE_HD 16 2 :: rest
      ∧ (∀ e ∈ rest, isLifecycleEvent e = false)
      ∧ ((camera_init 20000000 pixformat_t.PIXFORMAT_JPEG
          framesize_t.FRAMESIZE_HD 16 2
          { esp_camera_init_result := esp_err_t.ESP_OK
            sensor_pid := OV2640_PID
            support_jpeg := true }
          { inited := true
            cur_xclk_freq_hz := 20000000
            cur_pixel_format := pixformat_t.PIXFORMAT_JPEG
            cur_frame_size := framesize_t.FRAMESIZE_VGA
            cur_jpeg_quality := 12
            cur_fb_count := 2 }).1 ≠ esp_err_t.ESP_OK
          → (camera_init 20000000 pixformat_t.PIXFORMAT_JPEG
              framesize_t.FRAMESIZE_HD 16 2
              { esp_camera_init_result := esp_err_t.ESP_OK
                sensor_pid := OV2640_PID
                support_jpeg := true }
              { inited := true
                cur_xclk_freq_hz := 20000000
                cur_pixel_format := pixformat_t.PIXFORMAT_JPEG
                cur_frame_size := framesize_t.FRAMESIZE_VGA
                cur_jpeg_quality := 12
                cur_fb_count := 2 }).2.1.inited = false) :=
  C4_reconfigure_teardown_then_reinit 20000000 pixformat_t.PIXFORMAT_JPEG
    framesize_t.FRAMESIZE_HD 16 2
    { esp_camera_init_result := esp_err_t.ESP_OK
      sensor_pid := OV2640_PID
      support_jpeg := true }
    { inited := true
      cur_xclk_freq_hz := 20000000
      cur_pixel_format := pixformat_t.PIXFORMAT_JPEG
      cur_frame_size := framesize_t.FRAMESIZE_VGA
      cur_jpeg_quality := 12
      cur_fb_count := 2 }
    rfl (by decide)

/-- C5: a delivered frame longer than UVC_MAX_FRAMESIZE_SIZE makes
camera_fb_get_cb return NULL after exactly one esp_camera_fb_return call
for that frame. -/
theorem C5_oversized_frame_dropped (esp32s3 : Bool) (cam : camera_fb_t)
    (s : fb_t) (hlen : cam.len > UVC_MAX_FRAMESIZE_SIZE esp32s3) :
    camera_fb_get_cb (UVC_MAX_FRAMESIZE_SIZE esp32s3) (some cam) s
      = (none,
         { cam_fb_p := some cam
           uvc_fb :=
             { buf := cam.buf
               len := cam.len
               width := cam.width
               height := cam.height
               format := cam.format
               timestamp := cam.timestamp } },
         [FbEvent.espCameraFbReturn (some cam)]) := by
  simp [camera_fb_get_cb, hlen]

/-- C5 witness: on the ESP32-S3 limit of 76800 bytes, a 76801-byte frame
is dropped with one buffer-return call. -/
theorem C5_oversized_frame_dropped_witness :
    (76801 : Nat) > UVC_MAX_FRAMESIZE_SIZE true ∧
    camera_fb_get_cb (UVC_MAX_FRAMESIZE_SIZE true)
        (some { buf := 5
                len := 76801
                width := 1280
                height := 720
                format := pixformat_t.PIXFORMAT_JPEG
                timestamp := 0 })
        { cam_fb_p := none
          uvc_fb :=
            { buf := 0
              len := 0
              width := 0
              height := 0
              format := pixformat_t.PIXFORMAT_RGB565
              timestamp := 0 } }
      = (none,
         { cam_fb_p := some { buf := 5
                              len := 76801
                              width := 1280
                              height := 720
                              format := pixformat_t.PIXFORMAT_JPEG
                              timestamp := 0 }
           uvc_fb :=
             { buf := 5
               len := 76801
               width := 1280
               height := 720
               format := pixformat_t.PIXFORMAT_JPEG
               timestamp := 0 } },
         [FbEvent.espCameraFbReturn
           (some { buf := 5
                   len := 76801
                   width := 1280
                   height := 720
                   format := pixformat_t.PIXFORMAT_JPEG
                   timestamp := 0 })]) :=
  ⟨by decide,
   C5_oversized_frame_dropped true
     { buf := 5
       len := 76801
       width := 1280
       height := 720
       format := pixformat_t.PIXFORMAT_JPEG
       timestamp := 0 }
     { cam_fb_p := none
       uvc_fb :=
         { buf := 0
           len := 0
           width := 0
           height := 0
           format := pixformat_t.PIXFORMAT_RGB565
           timestamp := 0 } }
     (by decide)⟩

/-- C6: after an acquire that handed out a descriptor, releasing that
same descriptor makes exactly one esp_camera_fb_return call with the
paired sensor buffer; releasing any other handle makes the assertion fire
before any buffer-return call. -/
theorem C6_release_contract (maxFrameSize : Nat) (cam : camera_fb_t)
    (s : fb_t) (h : Nat) (hlen : cam.len ≤ maxFrameSize) :
    ((camera_fb_get_cb maxFrameSize (some cam) s).1
        = some S_FB_UVC_FB_ADDR ∧
     camera_fb_return_cb S_FB_UVC_FB_ADDR
         (camera_fb_get_cb maxFrameSize (some cam) s).2.1
       = some [FbEvent.espCameraFbReturn (some cam)]) ∧
    (h ≠ S_FB_UVC_FB_ADDR → camera_fb_return_cb h s = none) := by
  have hnot : ¬ cam.len > maxFrameSize := by omega
  refine ⟨⟨?_, ?_⟩, ?_⟩
  · simp [camera_fb_get_cb, hnot]
  · simp [camera_fb_get_cb, camera_fb_return_cb, hnot]
  · intro hne
    simp [camera_fb_return_cb, hne]

/-- C6 witness: with a 1000-byte frame under a 76800-byte limit, the
matched release returns the paired buffer and the mismatched handle 2
fires the assertion. -/
theorem C6_release_contract_witness :
    ((camera_fb_get_cb 76800
        (some { buf := 7
                len := 1000
                width := 640
                height := 480
                format := pixformat_t.PIXFORMAT_JPEG
                timestamp := 3 })
        { cam_fb_p := none
          uvc_fb :=
            { buf := 0
              len := 0
              width := 0
              height := 0
              format := pixformat_t.PIXFORMAT_RGB565
              timestamp := 0 } }).1 = some S_FB_UVC_FB_ADDR ∧
     camera_fb_return_cb S_FB_UVC_FB_ADDR
         (camera_fb_get_cb 76800
           (some { buf := 7
                   len := 1000
                   width := 640
                   height := 480
                   format := pixformat_t.PIXFORMAT_JPEG
                   timestamp := 3 })
           { cam_fb_p := none
             uvc_fb :=
               { buf := 0
                 len := 0
                 width := 0
                 height := 0
                 format := pixformat_t.PIXFORMAT_RGB565
                 timestamp := 0 } }).2.1
       = some [FbEvent.espCameraFbReturn
           (some { buf := 7
                   len := 1000
                   width := 640
                   height := 480
                   format := pixformat_t.PIXFORMAT_JPEG
                   timestamp := 3 })]) ∧
    ((2 : Nat) ≠ S_FB_UVC_FB_ADDR →
      camera_fb_return_cb 2
        { cam_fb_p := none
          uvc_fb :=
            { buf := 0
              len := 0
              width := 0
              height := 0
              format := pixformat_t.PIXFORMAT_RGB565
              timestamp := 0 } } = none) :=
  C6_release_contract 76800
    { buf := 7
      len := 1000
      width := 640
      height := 480
      format := pixformat_t.PIXFORMAT_JPEG
      timestamp := 3 }
    { cam_fb_p := none
      uvc_fb :=
        { buf := 0
          len := 0
          width := 0
          height := 0
          format := pixformat_t.PIXFORMAT_RGB565
          timestamp := 0 } }
    2 (by decide)

/-- C7: when esp_camera_init succeeds but the sensor reports no JPEG
support, a JPEG-format camera_init attempt (outside the cached-hit
branch) returns ESP_ERR_NOT_SUPPORTED and leaves the state uninitialized
with the cached configuration fields untouched. -/
theorem C7_jpeg_unsupported_uninitialized (xclk : Nat) (fs : framesize_t)
    (q : Int) (fbc : Nat) (env : CameraEnv) (st : CameraState)
    (hres : env.esp_camera_init_result = esp_err_t.ESP_OK)
    (hjpeg : env.support_jpeg = false)
    (hne : ¬(st.inited = true ∧ st.cur_xclk_freq_hz = xclk
        ∧ st.cur_pixel_format = pixformat_t.PIXFORMAT_JPEG
        ∧ st.cur_frame_size = fs ∧ st.cur_fb_count = fbc
        ∧ st.cur_jpeg_quality = q)) :
    (camera_init xclk pixformat_t.PIXFORMAT_JPEG fs q fbc env st).1
        = esp_err_t.ESP_ERR_NOT_SUPPORTED ∧
    (camera_init xclk pixformat_t.PIXFORMAT_JPEG fs q fbc env st).2.1
        = { st with inited := false } := by
  unfold camera_init
  rw [if_neg hne]
  by_cases hi : st.inited = true
  · constructor
    · simp [hi, hres, hjpeg]
    · simp [hi, hres, hjpeg]
  · have hi2 : st.inited = false := by
      cases hb : st.inited
      · rfl
      · exact absurd hb hi
    have hst : ({ st with inited := false } : CameraState) = st := by
      obtain ⟨i, a, b, c, d, e⟩ := st
      simp_all
    constructor
    · simp [hi2, hres, hjpeg]
    · simp [hi2, hres, hjpeg, hst]

/-- C7 witness: with JPEG unsupported the first initialization attempt
fails as not supported and the state stays uninitialized. -/
theorem C7_jpeg_unsupported_uninitialized_witness :
    (camera_init 20000000 pixformat_t.PIXFORMAT_JPEG
        framesize_t.FRAMESIZE_VGA 12 2
        { esp_camera_init_result := esp_err_t.ESP_OK
          sensor_pid := OV2640_PID
          support_jpeg := false }
        initialCameraState).1 = esp_err_t.ESP_ERR_NOT_SUPPORTED ∧
    (camera_init 20000000 pixformat_t.PIXFORMAT_JPEG
        framesize_t.FRAMESIZE_VGA 12 2
        { esp_camera_init_result := esp_err_t.ESP_OK
          sensor_pid := OV2640_PID
          support_jpeg := false }
        initialCameraState).2.1
      = { initialCameraState with inited := false } :=
  C7_jpeg_unsupported_uninitialized 20000000 framesize_t.FRAMESIZE_VGA
    12 2
    { esp_camera_init_result := esp_err_t.ESP_OK
      sensor_pid := OV2640_PID
      support_jpeg := false }
    initialCameraState rfl rfl (by decide)

set_option maxRecDepth 8192 in
/-- C8: negotiating MJPEG 640x480@30fps from the initial state succeeds
with frame_interval 333333, the VGA frame-size class and quality 12; a
following MJPEG 1280x720@15fps negotiation tears down (return-all then
deinit) and reinitializes with the HD class, yielding frame_interval
666666 and quality 16. -/
theorem C8_end_to_end_vga_then_hd (xclk : Nat) (env : CameraEnv)
    (hres : env.esp_camera_init_result = esp_err_t.ESP_OK)
    (hjpeg : env.support_jpeg = true) :
    let r1 := camera_start_cb xclk uvc_format_t.UVC_FORMAT_MJPEG 640 480 30
      env initialCameraState s_uvc_params_default
    let r2 := camera_start_cb xclk uvc_format_t.UVC_FORMAT_MJPEG 1280 720 15
      env r1.2.2.1 r1.2.1
    r1.1 = esp_err_t.ESP_OK ∧
    r1.2.1.frame_interval = 333333 ∧
    r1.2.2.1.cur_frame_size = framesize_t.FRAMESIZE_VGA ∧
    r1.2.2.1.cur_jpeg_quality = 12 ∧
    r2.1 = esp_err_t.ESP_OK ∧
    r2.2.1.frame_interval = 666666 ∧
    r2.2.2.1.cur_frame_size = framesize_t.FRAMESIZE_HD ∧
    r2.2.2.1.cur_jpeg_quality = 16 ∧
    r2.2.2.2.take 2
      = [CamEvent.espCameraReturnAll, CamEvent.espCameraDeinit] ∧
    CamEvent.espCameraInitEv xclk pixformat_t.PIXFORMAT_JPEG
      framesize_t.FRAMESIZE_HD 16 CAMERA_FB_COUNT ∈ r2.2.2.2 := by
  obtain ⟨ir, pid, sj⟩ := env
  obtain rfl : ir = esp_err_t.ESP_OK := hres
  obtain rfl : sj = true := hjpeg
  have h1 : camera_start_cb xclk uvc_format_t.UVC_FORMAT_MJPEG 640 480 30
      { esp_camera_init_result := esp_err_t.ESP_OK
        sensor_pid := pid
        support_jpeg := true }
      initialCameraState s_uvc_params_default
      = (esp_err_t.ESP_OK,
         { format := uvc_format_t.UVC_FORMAT_MJPEG
           width := 640
           height := 480
           frame_rate := 30
           frame_interval := 333333 },
         { inited := true
           cur_xclk_freq_hz := xclk
           cur_pixel_format := pixformat_t.PIXFORMAT_JPEG
           cur_frame_size := framesize_t.FRAMESIZE_VGA
           cur_jpeg_quality := 12
           cur_fb_count := 2 },
         CamEvent.espCameraInitEv xclk pixformat_t.PIXFORMAT_JPEG
           framesize_t.FRAMESIZE_VGA 12 2 :: sensor_corrections pid) := by
    simp [camera_start_cb, camera_init, frame_size_for,
      initialCameraState, s_uvc_params_default, CAMERA_FB_COUNT]
  have h2 : camera_start_cb xclk uvc_format_t.UVC_FORMAT_MJPEG 1280 720 15
      { esp_camera_init_result := esp_err_t.ESP_OK
        sensor_pid := pid
        support_jpeg := true }
      { inited := true
        cur_xclk_freq_hz := xclk
        cur_pixel_format := pixformat_t.PIXFORMAT_JPEG
        cur_frame_size := framesize_t.FRAMESIZE_VGA
        cur_jpeg_quality := 12
        cur_fb_count := 2 }
      { format := uvc_format_t.UVC_FORMAT_MJPEG
        width := 640
        height := 480
        frame_rate := 30
        frame_interval := 333333 }
      = (esp_err_t.ESP_OK,
         { format := uvc_format_t.UVC_FORMAT_MJPEG
           width := 1280
           height := 720
           frame_rate := 15
           frame_interval := 666666 },
         { inited := true
           cur_xclk_freq_hz := xclk
           cur_pixel_format := pixformat_t.PIXFORMAT_JPEG
           cur_frame_size := framesize_t.FRAMESIZE_HD
           cur_jpeg_quality := 16
           cur_fb_count := 2 },
         CamEvent.espCameraReturnAll :: CamEvent.espCameraDeinit
           :: CamEvent.espCameraInitEv xclk pixformat_t.PIXFORMAT_JPEG
                framesize_t.FRAMESIZE_HD 16 2
           :: sensor_corrections pid) := by
    simp [camera_start_cb, camera_init, frame_size_for, CAMERA_FB_COUNT]
  dsimp only
  rw [h1]
  dsimp only
  rw [h2]
  simp [CAMERA_FB_COUNT]

/-- C8 witness: the two-step scenario at a 20 MHz clock with a
cooperating OV2640 sensor. -/
theorem C8_end_to_end_vga_then_hd_witness :
    let r1 := camera_start_cb 20000000 uvc_format_t.UVC_FORMAT_MJPEG
      640 480 30
      { esp_camera_init_result := esp_err_t.ESP_OK
        sensor_pid := OV2640_PID
        support_jpeg := true }
      initialCameraState s_uvc_params_default
    let r2 := camera_start_cb 20000000 uvc_format_t.UVC_FORMAT_MJPEG
      1280 720 15
      { esp_camera_init_result := esp_err_t.ESP_OK
        sensor_pid := OV2640_PID
        support_jpeg := true }
      r1.2.2.1 r1.2.1
    r1.1 = esp_err_t.ESP_OK ∧
    r1.2.1.frame_interval = 333333 ∧
    r1.2.2.1.cur_frame_size = framesize_t.FRAMESIZE_VGA ∧
    r1.2.2.1.cur_jpeg_quality = 12 ∧
    r2.1 = esp_err_t.ESP_OK ∧
    r2.2.1.frame_interval = 666666 ∧
    r2.2.2.1.cur_frame_size = framesize_t.FRAMESIZE_HD ∧
    r2.2.2.1.cur_jpeg_quality = 16 ∧
    r2.2.2.2.take 2
      = [CamEvent.espCameraReturnAll, CamEvent.espCameraDeinit] ∧
    CamEvent.espCameraInitEv 20000000 pixformat_t.PIXFORMAT_JPEG
      framesize_t.FRAMESIZE_HD 16 CAMERA_FB_COUNT ∈ r2.2.2.2 :=
  C8_end_to_end_vga_then_hd 20000000
    { esp_camera_init_result := esp_err_t.ESP_OK
      sensor_pid := OV2640_PID
      support_jpeg := true }
    rfl rfl

/-- C9 (counterexample): a sensor whose product id 0x7777 matches none of
the four known variants still receives a correction during
initialization: the unconditional set_vflip(s, 1) of line 123 appears in
the trace, refuting that unknown product ids receive no correction. -/
theorem C9_counterexample :
    ((0x7777 : Nat) ≠ OV3660_PID ∧ (0x7777 : Nat) ≠ OV2640_PID
      ∧ (0x7777 : Nat) ≠ GC0308_PID ∧ (0x7777 : Nat) ≠ GC032A_PID) ∧
    CamEvent.setVflip 1 ∈
      (camera_init 20000000 pixformat_t.PIXFORMAT_JPEG
        framesize_t.FRAMESIZE_VGA 12 2
        { esp_camera_init_result := esp_err_t.ESP_OK
          sensor_pid := 0x7777
          support_jpeg := true }
        initialCameraState).2.2 := by
  decide

/-- C9 (amended): after a successful esp_camera_init, every sensor first
receives one unconditional vertical flip; then, selected by product id:
OV3660 additionally gets brightness +1, saturation -2 and a second
vertical flip; OV2640 a second vertical flip; GC0308 horizontal mirror
off; GC032A a second vertical flip; any other product id receives only
the unconditional flip. -/
theorem C9_corrections_by_pid (xclk : Nat) (pf : pixformat_t)
    (fs : framesize_t) (q : Int) (fbc : Nat) (env : CameraEnv)
    (st : CameraState)
    (hres : env.esp_camera_init_result = esp_err_t.ESP_OK)
    (hinit : st.inited = false) :
    (camera_init xclk pf fs q fbc env st).2.2
      = CamEvent.espCameraInitEv xclk pf fs q fbc :: CamEvent.setVflip 1
        :: (if env.sensor_pid = OV3660_PID then
              [CamEvent.setBrightness 1, CamEvent.setSaturation (-2),
               CamEvent.setVflip 1]
            else if env.sensor_pid = OV2640_PID then [CamEvent.setVflip 1]
            else if env.sensor_pid = GC0308_PID then [CamEvent.setHmirror 0]
            else if env.sensor_pid = GC032A_PID then [CamEvent.setVflip 1]
            else []) := by
  unfold camera_init
  rw [if_neg (fun hc => by rw [hinit] at hc; exact absurd hc.1 (by decide))]
  simp only [hinit, hres, Bool.false_eq_true, if_false, ne_eq,
    not_true_eq_false, List.nil_append, List.cons_append, List.append_nil]
  split_ifs with hj
  all_goals
    simp only [sensor_corrections]
    split_ifs <;>
      simp_all [OV3660_PID, OV2640_PID, GC0308_PID, GC032A_PID]

/-- C9 witness: an OV3660 sensor gets the unconditional flip, then
brightness +1, saturation -2 and a second flip. -/
theorem C9_corrections_by_pid_witness :
    (camera_init 20000000 pixformat_t.PIXFORMAT_JPEG
        framesize_t.FRAMESIZE_VGA 12 2
        { esp_camera_init_result := esp_err_t.ESP_OK
          sensor_pid := OV3660_PID
          support_jpeg := true }
        initialCameraState).2.2
      = [CamEvent.espCameraInitEv 20000000 pixformat_t.PIXFORMAT_JPEG
           framesize_t.FRAMESIZE_VGA 12 2,
         CamEvent.setVflip 1, CamEvent.setBrightness 1,
         CamEvent.setSaturation (-2), CamEvent.setVflip 1] :=
  C9_corrections_by_pid 20000000 pixformat_t.PIXFORMAT_JPEG
    framesize_t.FRAMESIZE_VGA 12 2
    { esp_camera_init_result := esp_err_t.ESP_OK
      sensor_pid := OV3660_PID
      support_jpeg := true }
    initialCameraState rfl rfl

/-- C10: every camera_start_cb call with positive rate overwrites the
s_uvc_params record with the requested format, width, height, rate and
derived interval, regardless of the previous record and regardless of
whether the call later fails validation, so a rejected request is still
reflected in the record. -/
theorem C10_params_overwritten_before_validation (xclkFreq : Nat)
    (format : uvc_format_t) (width height : Int) (rate : Nat)
    (env : CameraEnv) (st : CameraState) (params0 : UvcParams)
    (hrate : 0 < rate) :
    (camera_start_cb xclkFreq format width height rate env st
        params0).2.1
      = { format := format
          width := width
          height := height
          frame_rate := rate
          frame_interval := 10000000 / rate } := by
  unfold camera_start_cb
  dsimp only
  split
  · rfl
  · split <;> rfl

/-- C10 witness: a request rejected for its YUY2 format still lands in
the record. -/
theorem C10_params_overwritten_before_validation_witness :
    0 < 60 ∧
    (camera_start_cb 20000000 uvc_format_t.UVC_FORMAT_YUY2 999 999 60
        { esp_camera_init_result := esp_err_t.ESP_OK
          sensor_pid := OV2640_PID
          support_jpeg := true }
        initialCameraState s_uvc_params_default).2.1
      = { format := uvc_format_t.UVC_FORMAT_YUY2
          width := 999
          height := 999
          frame_rate := 60
          frame_interval := 10000000 / 60 } :=
  ⟨by decide,
   C10_params_overwritten_before_validation 20000000
     uvc_format_t.UVC_FORMAT_YUY2 999 999 60
     { esp_camera_init_result := esp_err_t.ESP_OK
       sensor_pid := OV2640_PID
       support_jpeg := true }
     initialCameraState s_uvc_params_default (by decide)⟩

end UsbWebcam
